import Mathlib

/-!
# Debt-Tracker lifecycle engine: shallow embedding

This file embeds the debt/payment lifecycle state machine of the Debt-Tracker
web application (`myapp/models.py`, `myapp/views.py`) and proves properties of
the embedded operations.

Modelling conventions:
* Decimal money amounts (`DecimalField` values, converted with `float(...)` in
  the views) are modelled as rationals `ℚ`.
* Timestamps (`timezone.now()`) are modelled as an explicit `now : Nat`
  parameter; `secrets.token_hex(8).upper()` is modelled as an explicit
  `tx : String` parameter (the random hex string).
* Each view function is modelled as its POST-path effect on the persistent
  state, after the web layer's authentication/ownership checks have passed
  (those checks only branch on the actor, never on the Debt/Payment state,
  except where noted).  A Django field assignment only reaches the database
  when followed by `.save()`; where a view mutates an object without saving
  it, the embedding keeps the persistent value unchanged.
* `messages.error(...)` + redirect branches are modelled as `Except.error`
  with the error kind of the specification's taxonomy (§7): status-guard
  failures map to `Err.invalidState`, amount/proof/input validation failures
  to `Err.validationError`.
* Uploaded files are modelled as `Bool` flags (present / absent); request
  parameters that may be absent or unparseable are `Option` values
  (`none` = absent or `float(...)` raised).
-/

namespace DebtTracker

/-- `CustomUser.ROLE_CHOICES` in `models.py`. -/
inductive Role
  | creditor
  | debtor
  | admin
  deriving DecidableEq

/-- A user account: `CustomUser` (the fields the lifecycle engine reads). -/
structure User where
  username : String
  account_type : Role
  deriving DecidableEq

/-- `Debt.STATUS_CHOICES` in `models.py`. -/
inductive DebtStatus
  | pending_confirmation
  | active
  | awaiting_confirmation
  | rejected
  | paid
  deriving DecidableEq

/-- `Payment.PAYMENT_METHOD_CHOICES` in `models.py`. -/
inductive PayMethod
  | cash
  | gcash
  deriving DecidableEq

/-- Payment statuses.  `PAYMENT_STATUS_CHOICES` lists `pending_debtor_proof`,
`pending_creditor_proof`, `completed`, `rejected`; in addition
`upload_debtor_proof` stores the literal status string `pending_confirmation`
(Django does not enforce the `choices` list on save), so it is a genuine
reachable status and is included here. -/
inductive PaymentStatus
  | pending_debtor_proof
  | pending_creditor_proof
  | pending_confirmation
  | completed
  | rejected
  deriving DecidableEq

/-- The persistent fields of a `Debt` row that the lifecycle engine reads or
writes (`models.py`, class `Debt`). -/
@[ext]
structure Debt where
  amount : ℚ
  paid_amount : ℚ
  status : DebtStatus
  payment_proof : Bool
  date_paid : Option Nat
  deriving DecidableEq

/-- `Debt.balance` property (`models.py`):
`max(0, float(self.amount) - float(self.paid_amount))`. -/
def Debt.balance (d : Debt) : ℚ :=
  max 0 (d.amount - d.paid_amount)

/-- `Debt.update_payment_status` (`models.py`): flips an `active` debt whose
balance reached 0 to `paid` and saves; otherwise it does NOT call `save()`.
The `Bool` result records whether `save()` ran (`True` branch of the source).
-/
def Debt.update_payment_status (d : Debt) (now : Nat) : Debt × Bool :=
  if d.balance ≤ 0 ∧ d.status = DebtStatus.active then
    ({ d with status := DebtStatus.paid, date_paid := some now }, true)
  else
    (d, false)

/-- The persistent fields of a `Payment` row that the lifecycle engine reads
or writes (`models.py`, class `Payment`). -/
@[ext]
structure Payment where
  amount : ℚ
  method : PayMethod
  status : PaymentStatus
  payment_date : Option Nat
  verified_at : Option Nat
  transaction_id : String
  debtor_proof : Bool
  creditor_proof : Bool
  deriving DecidableEq

/-- A `Payment` as constructed without an explicit `status`: the model field
declares `default='completed'`, `transaction_id` defaults to the empty
string, and the timestamp fields default to `NULL`. -/
def Payment.new (amount : ℚ) (method : PayMethod) : Payment :=
  { amount := amount
    method := method
    status := PaymentStatus.completed
    payment_date := none
    verified_at := none
    transaction_id := ""
    debtor_proof := false
    creditor_proof := false }

/-- `Payment.save` override (`models.py`): fills `transaction_id` with
`"TXN-" + secrets.token_hex(8).upper()` when it is empty, and stamps
`payment_date` / `verified_at` with the current time when the status is
`completed` and they are not yet set, then saves. -/
def Payment.save (p : Payment) (now : Nat) (tx : String) : Payment :=
  let p1 :=
    if p.transaction_id = "" then
      { p with transaction_id := "TXN-" ++ tx }
    else p
  let p2 :=
    if p1.status = PaymentStatus.completed ∧ p1.payment_date = none then
      { p1 with payment_date := some now }
    else p1
  if p2.status = PaymentStatus.completed ∧ p2.verified_at = none then
    { p2 with verified_at := some now }
  else p2

/-! Componentwise description of `Payment.save`, used so that proofs never
have to unfold the nested conditionals of `Payment.save` by hand. -/

@[simp]
theorem Payment.save_amount (p : Payment) (now : Nat) (tx : String) :
    (Payment.save p now tx).amount = p.amount := by
  simp only [Payment.save]
  split <;> split <;> (try split) <;> simp_all

@[simp]
theorem Payment.save_method (p : Payment) (now : Nat) (tx : String) :
    (Payment.save p now tx).method = p.method := by
  simp only [Payment.save]
  split <;> split <;> (try split) <;> simp_all

@[simp]
theorem Payment.save_status (p : Payment) (now : Nat) (tx : String) :
    (Payment.save p now tx).status = p.status := by
  simp only [Payment.save]
  split <;> split <;> (try split) <;> simp_all

@[simp]
theorem Payment.save_debtor_proof (p : Payment) (now : Nat) (tx : String) :
    (Payment.save p now tx).debtor_proof = p.debtor_proof := by
  simp only [Payment.save]
  split <;> split <;> (try split) <;> simp_all

@[simp]
theorem Payment.save_creditor_proof (p : Payment) (now : Nat) (tx : String) :
    (Payment.save p now tx).creditor_proof = p.creditor_proof := by
  simp only [Payment.save]
  split <;> split <;> (try split) <;> simp_all

@[simp]
theorem Payment.save_transaction_id (p : Payment) (now : Nat) (tx : String) :
    (Payment.save p now tx).transaction_id =
      if p.transaction_id = "" then "TXN-" ++ tx else p.transaction_id := by
  simp only [Payment.save]
  split <;> split <;> (try split) <;> simp_all

@[simp]
theorem Payment.save_payment_date (p : Payment) (now : Nat) (tx : String) :
    (Payment.save p now tx).payment_date =
      if p.status = PaymentStatus.completed ∧ p.payment_date = none then
        some now
      else p.payment_date := by
  simp only [Payment.save]
  split <;> split <;> (try split) <;> simp_all

@[simp]
theorem Payment.save_verified_at (p : Payment) (now : Nat) (tx : String) :
    (Payment.save p now tx).verified_at =
      if p.status = PaymentStatus.completed ∧ p.verified_at = none then
        some now
      else p.verified_at := by
  simp only [Payment.save]
  split <;> split <;> (try split) <;> simp_all

/-- The specification's error taxonomy (§7). -/
inductive Err
  | notFound
  | forbidden
  | invalidState
  | validationError
  deriving DecidableEq

/-- `DebtForm.clean_creditor_username` (`forms.py`): the username must
resolve to an existing account whose `account_type` is `creditor`; both
failure modes raise `ValidationError`. -/
def clean_creditor_username (users : List User) (name : String) :
    Except Err User :=
  match users.find? (fun u => u.username = name) with
  | none => Except.error Err.validationError
  | some u =>
      if u.account_type = Role.creditor then Except.ok u
      else Except.error Err.validationError

/-- `add_debt` view (`views.py`), POST path with a valid form: the form
validates the amount (model validator `MinValueValidator(0.01)`) and the
creditor username; on success the new `Debt` is stored with
`status = 'pending_confirmation'` and the default `paid_amount = 0`. -/
def add_debt (users : List User) (creditor_username : String) (amount : ℚ) :
    Except Err Debt :=
  if amount < 1 / 100 then Except.error Err.validationError
  else
    match clean_creditor_username users creditor_username with
    | Except.error e => Except.error e
    | Except.ok _ =>
        Except.ok
          { amount := amount
            paid_amount := 0
            status := DebtStatus.pending_confirmation
            payment_proof := false
            date_paid := none }

/-- `confirm_debt` view (`views.py`): guard `status == 'pending_confirmation'`,
then `status := 'active'`. -/
def confirm_debt (d : Debt) : Except Err Debt :=
  if d.status ≠ DebtStatus.pending_confirmation then
    Except.error Err.invalidState
  else
    Except.ok { d with status := DebtStatus.active }

/-- `reject_debt` view (`views.py`): guard `status == 'pending_confirmation'`,
then `status := 'rejected'`. -/
def reject_debt (d : Debt) : Except Err Debt :=
  if d.status ≠ DebtStatus.pending_confirmation then
    Except.error Err.invalidState
  else
    Except.ok { d with status := DebtStatus.rejected }

/-- `mark_as_paid` view (`views.py`), POST path.  `entered` is the submitted
`payment_amount` (`none` when absent or `float(...)` raised, in which case
the source falls back to `debt.balance`); `has_proof` is whether a
`creditor_proof` file was uploaded.  An entered amount above the balance is
silently capped to the balance; the debt is updated and saved, then a
completed cash `Payment` is created (its own save fills the transaction id).
-/
def mark_as_paid (d : Debt) (entered : Option ℚ) (has_proof : Bool)
    (now : Nat) (tx : String) : Except Err (Debt × Payment) :=
  if has_proof = false then Except.error Err.validationError
  else
    let pa0 : ℚ :=
      match entered with
      | some a => a
      | none => d.balance
    let pa : ℚ := if pa0 > d.balance then d.balance else pa0
    let d1 : Debt := { d with paid_amount := d.paid_amount + pa, payment_proof := true }
    let d2 : Debt :=
      if d1.balance ≤ 0 then
        { d1 with status := DebtStatus.paid, date_paid := some now }
      else d1
    let p : Payment :=
      Payment.save
        { amount := pa
          method := PayMethod.cash
          status := PaymentStatus.completed
          payment_date := some now
          verified_at := some now
          transaction_id := ""
          debtor_proof := false
          creditor_proof := true } now tx
    Except.ok (d2, p)

/-- `pay_debt` view (`views.py`): the payment-method selection page.  Guard:
`status ∈ {'active', 'pending_confirmation'}` and positive remaining balance
(otherwise the request is turned away with no state change). -/
def pay_debt (d : Debt) : Except Err Unit :=
  if d.status ≠ DebtStatus.active ∧ d.status ≠ DebtStatus.pending_confirmation then
    Except.error Err.invalidState
  else if d.balance ≤ 0 then
    Except.error Err.invalidState
  else
    Except.ok ()

/-- `submit_payment` view (`views.py`), POST path.  Parses the amount
(`none` = `float(...)` raised), rejects `amount ≤ 0` and
`amount > debt.balance`, then stores the amount and method in the session.
The view writes nothing to the Debt and performs NO status check; on success
it returns the staged session values consumed by `gcash_payment` /
`upload_debtor_proof`. -/
def submit_payment (d : Debt) (method : Option PayMethod) (amount : Option ℚ) :
    Except Err (ℚ × PayMethod) :=
  match amount with
  | none => Except.error Err.validationError
  | some amt =>
      if amt ≤ 0 then Except.error Err.validationError
      else if amt > d.balance then Except.error Err.validationError
      else
        match method with
        | some m => Except.ok (amt, m)
        | none => Except.error Err.validationError

/-- `gcash_payment` view (`views.py`), POST path.  Reads the session amount
(defaulting to `debt.balance` when absent), creates a completed gcash
`Payment`, adds the amount to `paid_amount`, and marks the debt `paid` when
the new balance reaches 0.  The view performs no status or balance check of
its own. -/
def gcash_payment (d : Debt) (session_amount : Option ℚ) (now : Nat)
    (tx : String) : Debt × Payment :=
  let amt : ℚ :=
    match session_amount with
    | some a => a
    | none => d.balance
  let p : Payment :=
    Payment.save
      { amount := amt
        method := PayMethod.gcash
        status := PaymentStatus.completed
        payment_date := some now
        verified_at := some now
        transaction_id := ""
        debtor_proof := false
        creditor_proof := false } now tx
  let d1 : Debt := { d with paid_amount := d.paid_amount + amt }
  let d2 : Debt :=
    if d1.balance ≤ 0 then
      { d1 with status := DebtStatus.paid, date_paid := some now }
    else d1
  (d2, p)

/-- `upload_debtor_proof` view (`views.py`), POST path.  Requires an uploaded
proof file; creates a cash `Payment` with status `pending_confirmation` for
the staged session amount, and sets the debt's status to
`awaiting_confirmation` without touching `paid_amount`. -/
def upload_debtor_proof (d : Debt) (session_amount : ℚ) (has_proof : Bool)
    (now : Nat) (tx : String) : Except Err (Debt × Payment) :=
  if has_proof = false then Except.error Err.validationError
  else
    let p : Payment :=
      Payment.save
        { amount := session_amount
          method := PayMethod.cash
          status := PaymentStatus.pending_confirmation
          payment_date := none
          verified_at := none
          transaction_id := ""
          debtor_proof := true
          creditor_proof := false } now tx
    Except.ok ({ d with status := DebtStatus.awaiting_confirmation }, p)

/-- The POST parameter `action` of `confirm_cash_payment`. -/
inductive ConfirmAction
  | confirm
  | reject
  deriving DecidableEq

/-- `confirm_cash_payment` view (`views.py`), POST path, for a payment `p` of
debt `d` (the view reads `payment.debt`).  Guard: the payment's status must
be `pending_confirmation`, otherwise "already processed".  On confirm the
payment is completed, `paid_amount` grows by the payment's amount, and the
debt becomes `paid` when the new balance reaches 0, else `active`.  On
reject the payment is rejected and the debt returns to `active`. -/
def confirm_cash_payment (d : Debt) (p : Payment) (action : ConfirmAction)
    (now : Nat) (tx : String) : Except Err (Debt × Payment) :=
  if p.status ≠ PaymentStatus.pending_confirmation then
    Except.error Err.invalidState
  else
    match action with
    | ConfirmAction.confirm =>
        let p1 : Payment :=
          Payment.save
            { p with
                status := PaymentStatus.completed
                verified_at := some now
                payment_date := some now } now tx
        let d1 : Debt := { d with paid_amount := d.paid_amount + p.amount }
        let d2 : Debt :=
          if d1.balance ≤ 0 then
            { d1 with status := DebtStatus.paid, date_paid := some now }
          else
            { d1 with status := DebtStatus.active }
        Except.ok (d2, p1)
    | ConfirmAction.reject =>
        let p1 : Payment := Payment.save { p with status := PaymentStatus.rejected } now tx
        Except.ok ({ d with status := DebtStatus.active }, p1)

/-- `admin_approve_payment` view (`views.py`), POST path.  There is NO guard
on the payment's current status: the payment is unconditionally completed and
saved.  The in-memory debt gets `paid_amount += payment.amount`, but the only
`save()` on the debt is the one inside `Debt.update_payment_status`, which
runs only when the incremented balance is ≤ 0 and the status is `active`;
otherwise the increment never reaches the database and the persistent debt is
unchanged. -/
def admin_approve_payment (d : Debt) (p : Payment) (now : Nat) (tx : String) :
    Debt × Payment :=
  let p1 : Payment :=
    Payment.save
      { p with status := PaymentStatus.completed, verified_at := some now } now tx
  let d1 : Debt := { d with paid_amount := d.paid_amount + p.amount }
  let r : Debt × Bool := Debt.update_payment_status d1 now
  (if r.2 then r.1 else d, p1)

/-- `admin_reject_payment` view (`views.py`), POST path.  Sets the payment's
status to `rejected` and saves it; the parent debt is never read or written.
-/
def admin_reject_payment (d : Debt) (p : Payment) (now : Nat) (tx : String) :
    Debt × Payment :=
  (d, Payment.save { p with status := PaymentStatus.rejected } now tx)

end DebtTracker

namespace DebtTracker

/-! ## Helper lemmas about the balance -/

theorem Debt.balance_of_le {d : Debt} (h : d.paid_amount ≤ d.amount) :
    d.balance = d.amount - d.paid_amount := by
  unfold Debt.balance
  exact max_eq_right (by linarith)

theorem Debt.balance_nonpos_iff (d : Debt) :
    d.balance ≤ 0 ↔ d.amount ≤ d.paid_amount := by
  unfold Debt.balance
  rw [max_le_iff]
  constructor
  · intro h
    linarith [h.2]
  · intro h
    exact ⟨le_refl 0, by linarith⟩

/-! ## Claims -/

/-- Claim C3: for every Debt, the derived balance equals
`max(0, amount − paid_amount)` and is never negative.  `Debt.balance` is a
computed property re-evaluated from the stored `amount` / `paid_amount`
fields on every read, so this holds for the result of every operation. -/
theorem c3_balance_clamped (d : Debt) :
    d.balance = max 0 (d.amount - d.paid_amount) ∧ 0 ≤ d.balance :=
  ⟨rfl, le_max_left 0 _⟩

/-- Claim C7: submitting a cash payment with proof creates a Payment with
status `pending_confirmation`, sets the Debt's status to
`awaiting_confirmation`, and leaves `paid_amount`, `amount` and the balance
unchanged. -/
theorem c7_upload_proof_frame (d : Debt) (amt : ℚ) (now : Nat) (tx : String)
    (r : Debt × Payment)
    (h : upload_debtor_proof d amt true now tx = Except.ok r) :
    r.2.status = PaymentStatus.pending_confirmation ∧
    r.1.status = DebtStatus.awaiting_confirmation ∧
    r.1.paid_amount = d.paid_amount ∧
    r.1.amount = d.amount ∧
    r.1.balance = d.balance := by
  unfold upload_debtor_proof at h
  simp only [Bool.true_eq_false, if_false] at h
  cases h
  refine ⟨?_, rfl, rfl, rfl, rfl⟩
  simp [Payment.save]

def c7w_d : Debt :=
  { amount := 1000, paid_amount := 0, status := DebtStatus.active,
    payment_proof := false, date_paid := none }

def c7w_r : Debt × Payment :=
  ({ amount := 1000, paid_amount := 0, status := DebtStatus.awaiting_confirmation,
     payment_proof := false, date_paid := none },
   { amount := 400, method := PayMethod.cash,
     status := PaymentStatus.pending_confirmation, payment_date := none,
     verified_at := none, transaction_id := "TXN-" ++ "CC",
     debtor_proof := true, creditor_proof := false })

theorem c7_upload_proof_frame_witness :
    c7w_r.2.status = PaymentStatus.pending_confirmation ∧
    c7w_r.1.status = DebtStatus.awaiting_confirmation ∧
    c7w_r.1.paid_amount = c7w_d.paid_amount ∧
    c7w_r.1.amount = c7w_d.amount ∧
    c7w_r.1.balance = c7w_d.balance :=
  c7_upload_proof_frame c7w_d 400 0 "CC" c7w_r
    (by
      unfold upload_debtor_proof
      norm_num [c7w_d, c7w_r, Prod.ext_iff]
      ext <;> simp)

/-- Claim C10: in `mark_as_paid`, an absent or unparseable `payment_amount`
does not make the operation fail: the Debt's full remaining balance is
silently substituted, and a completed cash Payment for that amount is
recorded, with `paid_amount` increased by the balance. -/
theorem c10_mark_as_paid_default (d : Debt) (now : Nat) (tx : String) :
    ∃ r, mark_as_paid d none true now tx = Except.ok r ∧
      r.2.amount = d.balance ∧
      r.2.method = PayMethod.cash ∧
      r.2.status = PaymentStatus.completed ∧
      r.1.paid_amount = d.paid_amount + d.balance := by
  unfold mark_as_paid
  simp only [Bool.true_eq_false, if_false, lt_self_iff_false, gt_iff_lt, if_neg]
  refine ⟨_, rfl, ?_, ?_, ?_, ?_⟩
  · simp [Payment.save]
  · simp [Payment.save]
  · simp [Payment.save]
  · split <;> rfl


/-- Claim C9: a Payment constructed without an explicit status defaults to
`completed`; its first save stamps `payment_date` and `verified_at` and
generates a transaction id of the form `TXN-` followed by the hex string;
and once set, `payment_date`, `verified_at` and `transaction_id` are never
overwritten by later saves. -/
theorem c9_payment_save_once :
    (∀ (a : ℚ) (m : PayMethod),
      (Payment.new a m).status = PaymentStatus.completed) ∧
    (∀ (a : ℚ) (m : PayMethod) (now : Nat) (tx : String),
      (Payment.save (Payment.new a m) now tx).payment_date = some now ∧
      (Payment.save (Payment.new a m) now tx).verified_at = some now ∧
      (Payment.save (Payment.new a m) now tx).transaction_id = "TXN-" ++ tx) ∧
    (∀ (p : Payment) (now : Nat) (tx : String), p.transaction_id ≠ "" →
      (Payment.save p now tx).transaction_id = p.transaction_id) ∧
    (∀ (p : Payment) (now : Nat) (tx : String) (t : Nat), p.payment_date = some t →
      (Payment.save p now tx).payment_date = some t) ∧
    (∀ (p : Payment) (now : Nat) (tx : String) (t : Nat), p.verified_at = some t →
      (Payment.save p now tx).verified_at = some t) := by
  refine ⟨fun a m => rfl, fun a m now tx => ?_, fun p now tx h => ?_, ?_, ?_⟩
  · simp [Payment.new]
  · simp [h]
  · intro p now tx t h
    simp [h]
  · intro p now tx t h
    simp [h]

def c9w_p : Payment :=
  { amount := 400, method := PayMethod.cash, status := PaymentStatus.completed,
    payment_date := some 3, verified_at := some 4,
    transaction_id := "TXN-OLD", debtor_proof := false, creditor_proof := true }

theorem c9_payment_save_once_witness :
    (Payment.save c9w_p 5 "DD").transaction_id = c9w_p.transaction_id ∧
    (Payment.save c9w_p 5 "DD").payment_date = some 3 ∧
    (Payment.save c9w_p 5 "DD").verified_at = some 4 :=
  ⟨c9_payment_save_once.2.2.1 c9w_p 5 "DD" (by decide),
   c9_payment_save_once.2.2.2.1 c9w_p 5 "DD" 3 rfl,
   c9_payment_save_once.2.2.2.2 c9w_p 5 "DD" 4 rfl⟩

/-- Claim C5: in the debtor flow, a submitted amount that is ≤ 0 or exceeds
the current balance is rejected with a ValidationError (the view stages
nothing and writes nothing to the Debt, so no state changes); in the
creditor `mark_as_paid` flow, an entered amount above the balance is
silently capped to the remaining balance and the operation succeeds with
the capped amount. -/
theorem c5_over_balance_asymmetry (d : Debt) :
    (∀ (m : Option PayMethod) (amt : ℚ), amt ≤ 0 →
      submit_payment d m (some amt) = Except.error Err.validationError) ∧
    (∀ (m : Option PayMethod) (amt : ℚ), d.balance < amt →
      submit_payment d m (some amt) = Except.error Err.validationError) ∧
    (∀ (entered : ℚ) (now : Nat) (tx : String), d.balance < entered →
      ∃ r, mark_as_paid d (some entered) true now tx = Except.ok r ∧
        r.2.amount = d.balance ∧
        r.1.paid_amount = d.paid_amount + d.balance) := by
  refine ⟨fun m amt h => ?_, fun m amt h => ?_, fun entered now tx h => ?_⟩
  · unfold submit_payment
    simp [h]
  · have hpos : ¬ amt ≤ 0 := by
      have h0 : (0 : ℚ) ≤ d.balance := le_max_left 0 _
      intro hc
      linarith
    unfold submit_payment
    simp [hpos, h]
  · unfold mark_as_paid
    simp only [Bool.true_eq_false, if_false, gt_iff_lt, if_pos h]
    refine ⟨_, rfl, by simp, ?_⟩
    split <;> rfl

def c5w_d : Debt :=
  { amount := 1000, paid_amount := 400, status := DebtStatus.active,
    payment_proof := false, date_paid := none }

theorem c5_over_balance_asymmetry_witness :
    submit_payment c5w_d (some PayMethod.gcash) (some 700) =
      Except.error Err.validationError ∧
    (∃ r, mark_as_paid c5w_d (some 700) true 9 "EE" = Except.ok r ∧
      r.2.amount = c5w_d.balance ∧
      r.1.paid_amount = c5w_d.paid_amount + c5w_d.balance) :=
  ⟨(c5_over_balance_asymmetry c5w_d).2.1 (some PayMethod.gcash) 700
      (by norm_num [c5w_d, Debt.balance]),
   (c5_over_balance_asymmetry c5w_d).2.2 700 9 "EE"
      (by norm_num [c5w_d, Debt.balance])⟩

/-- Claim C6: creating a Debt succeeds only when the supplied creditor
username resolves to an existing account with role creditor; otherwise the
operation fails with a ValidationError and no Debt is created.  On success
the new Debt has status `pending_confirmation` (and starts unpaid). -/
theorem c6_add_debt_role_guard :
    (∀ (users : List User) (name : String) (amt : ℚ) (d : Debt),
      add_debt users name amt = Except.ok d →
      (∃ u, List.find? (fun v => v.username = name) users = some u ∧
        u.account_type = Role.creditor) ∧
      d.status = DebtStatus.pending_confirmation ∧ d.paid_amount = 0) ∧
    (∀ (users : List User) (name : String) (amt : ℚ),
      (∀ u, List.find? (fun v => v.username = name) users = some u →
        u.account_type ≠ Role.creditor) →
      add_debt users name amt = Except.error Err.validationError) := by
  constructor
  · intro users name amt d h
    unfold add_debt clean_creditor_username at h
    split at h
    · exact Except.noConfusion h
    · cases hfind : List.find? (fun v => v.username = name) users with
      | none => simp [hfind] at h
      | some u =>
          by_cases hrole : u.account_type = Role.creditor
          · simp only [hfind, hrole, if_true] at h
            cases h
            exact ⟨⟨u, rfl, hrole⟩, rfl, rfl⟩
          · simp [hfind, hrole] at h
  · intro users name amt hall
    unfold add_debt clean_creditor_username
    split
    · rfl
    · cases hfind : List.find? (fun v => v.username = name) users with
      | none => simp [hfind]
      | some u => simp [hfind, hall u hfind]

def c6w_users : List User :=
  [{ username := "bob", account_type := Role.debtor }]

theorem c6_add_debt_role_guard_witness :
    add_debt c6w_users "bob" 5 = Except.error Err.validationError :=
  c6_add_debt_role_guard.2 c6w_users "bob" 5
    (by
      intro u hu
      simp [c6w_users, List.find?] at hu
      simp [← hu, c6w_users])


/-- Claim C1 (amended): the invariant `paid_amount ≤ amount` is preserved by
`mark_as_paid` (which caps the applied amount at the balance), by
`upload_debtor_proof` (which never touches `paid_amount`), by the validated
`submit_payment`/`gcash_payment` flow (the submitted amount is checked
against the balance), and by the reject / admin-reject paths; but
`confirm_cash_payment` (confirm) and `admin_approve_payment` add the pending
Payment's amount unconditionally, so they preserve the invariant only under
the additional bound `p.amount ≤ amount − paid_amount` — the original claim,
which asserts unconditional preservation for those two operations as well,
fails (see the counterexample). -/
theorem c1_invariant_preservation (d : Debt) (hinv : d.paid_amount ≤ d.amount) :
    (∀ (entered : Option ℚ) (hp : Bool) (now : Nat) (tx : String) (r : Debt × Payment),
      mark_as_paid d entered hp now tx = Except.ok r →
      r.1.paid_amount ≤ r.1.amount) ∧
    (∀ (amt : ℚ) (hp : Bool) (now : Nat) (tx : String) (r : Debt × Payment),
      upload_debtor_proof d amt hp now tx = Except.ok r →
      r.1.paid_amount ≤ r.1.amount) ∧
    (∀ (amt : ℚ) (m : PayMethod) (now : Nat) (tx : String),
      submit_payment d (some m) (some amt) = Except.ok (amt, m) →
      (gcash_payment d (some amt) now tx).1.paid_amount ≤
        (gcash_payment d (some amt) now tx).1.amount) ∧
    (∀ (p : Payment) (now : Nat) (tx : String) (r : Debt × Payment),
      p.amount ≤ d.amount - d.paid_amount →
      confirm_cash_payment d p ConfirmAction.confirm now tx = Except.ok r →
      r.1.paid_amount ≤ r.1.amount) ∧
    (∀ (p : Payment) (now : Nat) (tx : String) (r : Debt × Payment),
      confirm_cash_payment d p ConfirmAction.reject now tx = Except.ok r →
      r.1.paid_amount ≤ r.1.amount) ∧
    (∀ (p : Payment) (now : Nat) (tx : String),
      p.amount ≤ d.amount - d.paid_amount →
      (admin_approve_payment d p now tx).1.paid_amount ≤
        (admin_approve_payment d p now tx).1.amount) ∧
    (∀ (p : Payment) (now : Nat) (tx : String),
      (admin_reject_payment d p now tx).1.paid_amount ≤
        (admin_reject_payment d p now tx).1.amount) := by
  have hbal : d.balance = d.amount - d.paid_amount := Debt.balance_of_le hinv
  refine ⟨?_, ?_, ?_, ?_, ?_, ?_, ?_⟩
  · intro entered hp now tx r h
    unfold mark_as_paid at h
    split at h
    · exact Except.noConfusion h
    · cases h
      split <;> rcases entered with _ | a <;> dsimp only <;> split <;>
        dsimp only <;> rename_i hcap <;> linarith [hbal]
  · intro amt hp now tx r h
    unfold upload_debtor_proof at h
    split at h
    · exact Except.noConfusion h
    · cases h
      exact hinv
  · intro amt m now tx hsub
    unfold submit_payment at hsub
    dsimp only at hsub
    split at hsub
    · exact Except.noConfusion hsub
    · split at hsub
      · exact Except.noConfusion hsub
      · rename_i h1 h2
        unfold gcash_payment
        dsimp only
        split <;> dsimp only <;> linarith [hbal, not_lt.mp h2]
  · intro p now tx r hle h
    unfold confirm_cash_payment at h
    split at h
    · exact Except.noConfusion h
    · cases h
      split <;> dsimp only <;> linarith
  · intro p now tx r h
    unfold confirm_cash_payment at h
    split at h
    · exact Except.noConfusion h
    · cases h
      exact hinv
  · intro p now tx hle
    unfold admin_approve_payment Debt.update_payment_status
    dsimp only
    split <;> simp <;> linarith
  · intro p now tx
    exact hinv

def c1w_d : Debt :=
  { amount := 1000, paid_amount := 0, status := DebtStatus.active,
    payment_proof := false, date_paid := none }

def c1w_r : Debt × Payment :=
  ({ amount := 1000, paid_amount := 0,
     status := DebtStatus.awaiting_confirmation,
     payment_proof := false, date_paid := none },
   { amount := 400, method := PayMethod.cash,
     status := PaymentStatus.pending_confirmation, payment_date := none,
     verified_at := none, transaction_id := "TXN-" ++ "CC",
     debtor_proof := true, creditor_proof := false })

theorem c1_invariant_preservation_witness :
    c1w_r.1.paid_amount ≤ c1w_r.1.amount :=
  (c1_invariant_preservation c1w_d (by norm_num [c1w_d])).2.1
    400 true 0 "CC" c1w_r rfl

/-- The active debt the C1 counterexample starts from. -/
def c1x_d0 : Debt :=
  { amount := 1000, paid_amount := 0, status := DebtStatus.active,
    payment_proof := false, date_paid := none }

/-- The same debt after the debtor uploads a cash-payment proof of 400. -/
def c1x_dA : Debt :=
  { amount := 1000, paid_amount := 0,
    status := DebtStatus.awaiting_confirmation,
    payment_proof := false, date_paid := none }

/-- The pending Payment created by that upload. -/
def c1x_p : Payment :=
  { amount := 400, method := PayMethod.cash,
    status := PaymentStatus.pending_confirmation, payment_date := none,
    verified_at := none, transaction_id := "TXN-" ++ "CC",
    debtor_proof := true, creditor_proof := false }

/-- The debt after the creditor then uses `mark_as_paid` (no status guard)
with the full balance: `paid_amount = amount = 1000`. -/
def c1x_d : Debt :=
  { amount := 1000, paid_amount := 1000, status := DebtStatus.paid,
    payment_proof := true, date_paid := some 1 }

/-- Claim C1, counterexample: the violating state is produced by the code
itself.  From an active debt of 1000, `upload_debtor_proof` stages a pending
cash Payment of 400; `mark_as_paid` (which has no status guard) then brings
`paid_amount` to 1000; the invariant `paid_amount ≤ amount` holds (1000 ≤
1000), yet confirming the still-pending Payment is accepted (its guard looks
only at the Payment's status) and leaves `paid_amount = 1400 > 1000 =
amount`: the operation does not preserve the invariant. -/
theorem c1_counterexample :
    upload_debtor_proof c1x_d0 400 true 0 "CC" = Except.ok (c1x_dA, c1x_p) ∧
    Except.map (fun r => r.1) (mark_as_paid c1x_dA none true 1 "AA") =
      Except.ok c1x_d ∧
    c1x_d.paid_amount ≤ c1x_d.amount ∧
    Except.map (fun r => (r.1.paid_amount, r.1.amount))
        (confirm_cash_payment c1x_d c1x_p ConfirmAction.confirm 2 "AB") =
      Except.ok ((1400 : ℚ), (1000 : ℚ)) ∧
    ¬ ((1400 : ℚ) ≤ (1000 : ℚ)) := by
  refine ⟨rfl, ?_, by norm_num [c1x_d], ?_, by norm_num⟩
  · unfold mark_as_paid
    norm_num [c1x_dA, c1x_d, Debt.balance, Except.map]
  · unfold confirm_cash_payment
    norm_num [c1x_d, c1x_p, Debt.balance, Except.map]


/-- Claim C2 (amended): the creditor path `confirm_cash_payment` increases
`paid_amount` by exactly the Payment's amount, marks the Payment completed,
and rejects any Payment not in `pending_confirmation` (in particular an
already-completed one) with an InvalidState failure; the admin approval path,
however, has NO status guard — it never rejects an already-completed
Payment — and its increment to `paid_amount` persists exactly when the
debt is `active` and the incremented amount clears the balance (otherwise
the debt row is left unchanged because `update_payment_status` is the only
`save()` on the debt). -/
theorem c2_confirm_exactly_once :
    (∀ (d : Debt) (p : Payment) (now : Nat) (tx : String) (r : Debt × Payment),
      confirm_cash_payment d p ConfirmAction.confirm now tx = Except.ok r →
      r.1.paid_amount = d.paid_amount + p.amount ∧
      r.2.status = PaymentStatus.completed) ∧
    (∀ (d : Debt) (p : Payment) (a : ConfirmAction) (now : Nat) (tx : String),
      p.status ≠ PaymentStatus.pending_confirmation →
      confirm_cash_payment d p a now tx = Except.error Err.invalidState) ∧
    (∀ (d : Debt) (p : Payment) (now : Nat) (tx : String),
      d.status = DebtStatus.active → d.amount ≤ d.paid_amount + p.amount →
      (admin_approve_payment d p now tx).1.paid_amount =
        d.paid_amount + p.amount) ∧
    (∀ (d : Debt) (p : Payment) (now : Nat) (tx : String),
      ¬ (d.amount ≤ d.paid_amount + p.amount ∧ d.status = DebtStatus.active) →
      (admin_approve_payment d p now tx).1 = d) := by
  refine ⟨?_, ?_, ?_, ?_⟩
  · intro d p now tx r h
    unfold confirm_cash_payment at h
    split at h
    · exact Except.noConfusion h
    · cases h
      constructor
      · split <;> rfl
      · simp
  · intro d p a now tx hst
    unfold confirm_cash_payment
    rw [if_pos hst]
  · intro d p now tx hact hcover
    unfold admin_approve_payment Debt.update_payment_status
    dsimp only
    have hcond :
        ({ amount := d.amount, paid_amount := d.paid_amount + p.amount,
           status := d.status, payment_proof := d.payment_proof,
           date_paid := d.date_paid } : Debt).balance ≤ 0 ∧
        d.status = DebtStatus.active := by
      refine ⟨?_, hact⟩
      rw [Debt.balance_nonpos_iff]
      exact hcover
    rw [if_pos hcond]
    simp
  · intro d p now tx hnot
    unfold admin_approve_payment Debt.update_payment_status
    dsimp only
    have hcond :
        ¬ (({ amount := d.amount, paid_amount := d.paid_amount + p.amount,
              status := d.status, payment_proof := d.payment_proof,
              date_paid := d.date_paid } : Debt).balance ≤ 0 ∧
           d.status = DebtStatus.active) := by
      intro hc
      exact hnot ⟨(Debt.balance_nonpos_iff _).mp hc.1, hc.2⟩
    rw [if_neg hcond]
    simp

def c2w_d : Debt :=
  { amount := 1000, paid_amount := 400, status := DebtStatus.active,
    payment_proof := false, date_paid := none }

def c2w_p : Payment :=
  { amount := 400, method := PayMethod.cash,
    status := PaymentStatus.completed, payment_date := some 0,
    verified_at := some 0, transaction_id := "TXN-" ++ "DD",
    debtor_proof := true, creditor_proof := false }

theorem c2_confirm_exactly_once_witness :
    confirm_cash_payment c2w_d c2w_p ConfirmAction.confirm 1 "EE" =
      Except.error Err.invalidState :=
  c2_confirm_exactly_once.2.1 c2w_d c2w_p ConfirmAction.confirm 1 "EE"
    (by decide)

/-- The active, partially paid debt of the C2 counterexample. -/
def c2x_d : Debt :=
  { amount := 1000, paid_amount := 700, status := DebtStatus.active,
    payment_proof := false, date_paid := none }

/-- An already-completed cash Payment of 400 against that debt. -/
def c2x_p : Payment :=
  { amount := 400, method := PayMethod.cash,
    status := PaymentStatus.completed, payment_date := some 0,
    verified_at := some 0, transaction_id := "TXN-" ++ "FF",
    debtor_proof := true, creditor_proof := false }

/-- Claim C2, counterexample: re-confirming an already-completed Payment
through the admin approval path is NOT rejected with an InvalidState
failure — `admin_approve_payment` is a total function with no status guard —
and it changes `paid_amount` again: a completed Payment of 400 against an
active debt with `paid_amount = 700` yields `paid_amount = 1100`. -/
theorem c2_counterexample :
    c2x_p.status = PaymentStatus.completed ∧
    c2x_d.paid_amount = 700 ∧
    c2x_p.amount = 400 ∧
    (admin_approve_payment c2x_d c2x_p 3 "GG").1.paid_amount = 1100 := by
  refine ⟨rfl, rfl, rfl, ?_⟩
  unfold admin_approve_payment Debt.update_payment_status
  norm_num [c2x_d, c2x_p, Debt.balance]

/-- Claim C4 (amended): when the creditor rejects a cash payment through
`confirm_cash_payment`, the Payment becomes `rejected` and the parent Debt
is set to `active` regardless of its prior status; the admin rejection path
(`admin_reject_payment`), however, only marks the Payment `rejected` and
leaves the parent Debt completely untouched — it does not set the Debt to
`active`. -/
theorem c4_reject_returns_active :
    (∀ (d : Debt) (p : Payment) (now : Nat) (tx : String) (r : Debt × Payment),
      confirm_cash_payment d p ConfirmAction.reject now tx = Except.ok r →
      r.1.status = DebtStatus.active ∧
      r.2.status = PaymentStatus.rejected) ∧
    (∀ (d : Debt) (p : Payment) (now : Nat) (tx : String),
      (admin_reject_payment d p now tx).2.status = PaymentStatus.rejected ∧
      (admin_reject_payment d p now tx).1 = d) := by
  constructor
  · intro d p now tx r h
    unfold confirm_cash_payment at h
    split at h
    · exact Except.noConfusion h
    · cases h
      exact ⟨rfl, by simp⟩
  · intro d p now tx
    unfold admin_reject_payment
    exact ⟨by simp, rfl⟩

def c4w_d : Debt :=
  { amount := 500, paid_amount := 0, status := DebtStatus.awaiting_confirmation,
    payment_proof := false, date_paid := none }

def c4w_p : Payment :=
  { amount := 200, method := PayMethod.cash,
    status := PaymentStatus.pending_confirmation, payment_date := none,
    verified_at := none, transaction_id := "", debtor_proof := true,
    creditor_proof := false }

def c4w_r : Debt × Payment :=
  ({ amount := 500, paid_amount := 0, status := DebtStatus.active,
     payment_proof := false, date_paid := none },
   { amount := 200, method := PayMethod.cash,
     status := PaymentStatus.rejected, payment_date := none,
     verified_at := none, transaction_id := "TXN-" ++ "HH",
     debtor_proof := true, creditor_proof := false })

theorem c4_reject_returns_active_witness :
    c4w_r.1.status = DebtStatus.active ∧
    c4w_r.2.status = PaymentStatus.rejected :=
  c4_reject_returns_active.1 c4w_d c4w_p 5 "HH" c4w_r rfl

/-- The awaiting-confirmation debt of the C4 counterexample. -/
def c4x_d : Debt :=
  { amount := 500, paid_amount := 0, status := DebtStatus.awaiting_confirmation,
    payment_proof := false, date_paid := none }

/-- Its pending cash Payment. -/
def c4x_p : Payment :=
  { amount := 200, method := PayMethod.cash,
    status := PaymentStatus.pending_confirmation, payment_date := none,
    verified_at := none, transaction_id := "TXN-" ++ "JJ",
    debtor_proof := true, creditor_proof := false }

/-- Claim C4, counterexample: when the admin rejects the pending Payment of
a debt in `awaiting_confirmation`, the Payment transitions to `rejected`
but the parent Debt's status stays `awaiting_confirmation` — it is not set
to `active` as the claim states for every rejection path. -/
theorem c4_counterexample :
    (admin_reject_payment c4x_d c4x_p 6 "KK").2.status =
      PaymentStatus.rejected ∧
    (admin_reject_payment c4x_d c4x_p 6 "KK").1.status =
      DebtStatus.awaiting_confirmation ∧
    DebtStatus.awaiting_confirmation ≠ DebtStatus.active := by
  refine ⟨by simp [admin_reject_payment, c4x_p], rfl, by decide⟩

/-- Claim C8 (amended): for a Debt with status `rejected`, the
payment-method page `pay_debt` refuses the request with an InvalidState
failure (and changes nothing); but `submit_payment` and `gcash_payment`
themselves perform no status check, so a submission that skips the
`pay_debt` page (a direct POST) with `0 < amount ≤ balance` is accepted,
and completing it creates a Payment and increases the rejected Debt's
`paid_amount`. -/
theorem c8_rejected_debt_submission :
    (∀ d : Debt, d.status = DebtStatus.rejected →
      pay_debt d = Except.error Err.invalidState) ∧
    (∀ (d : Debt) (amt : ℚ), d.status = DebtStatus.rejected →
      0 < amt → amt ≤ d.balance →
      submit_payment d (some PayMethod.gcash) (some amt) =
        Except.ok (amt, PayMethod.gcash)) ∧
    (∀ (d : Debt) (amt : ℚ) (now : Nat) (tx : String),
      (gcash_payment d (some amt) now tx).1.paid_amount =
        d.paid_amount + amt) := by
  refine ⟨?_, ?_, ?_⟩
  · intro d h
    unfold pay_debt
    rw [if_pos]
    simp [h]
  · intro d amt hrej hpos hle
    unfold submit_payment
    dsimp only
    rw [if_neg (not_le.mpr hpos), if_neg (not_lt.mpr hle)]
  · intro d amt now tx
    unfold gcash_payment
    dsimp only
    split <;> rfl

def c8w_d : Debt :=
  { amount := 500, paid_amount := 0, status := DebtStatus.rejected,
    payment_proof := false, date_paid := none }

theorem c8_rejected_debt_submission_witness :
    pay_debt c8w_d = Except.error Err.invalidState ∧
    submit_payment c8w_d (some PayMethod.gcash) (some 100) =
      Except.ok (100, PayMethod.gcash) :=
  ⟨c8_rejected_debt_submission.1 c8w_d rfl,
   c8_rejected_debt_submission.2.1 c8w_d 100 rfl (by norm_num)
     (by norm_num [c8w_d, Debt.balance])⟩

/-- Claim C8, counterexample: against a rejected Debt of amount 500, a
direct `submit_payment` POST of 100 via gcash does not fail with an
InvalidState failure — it succeeds, and the subsequent `gcash_payment`
step records a Payment and raises the rejected Debt's `paid_amount` from
0 to 100. -/
theorem c8_counterexample :
    c8w_d.status = DebtStatus.rejected ∧
    submit_payment c8w_d (some PayMethod.gcash) (some 100) =
      Except.ok (100, PayMethod.gcash) ∧
    (gcash_payment c8w_d (some 100) 7 "LL").1.paid_amount = 100 ∧
    c8w_d.paid_amount = 0 := by
  refine ⟨rfl, ?_, ?_, rfl⟩
  · unfold submit_payment
    norm_num [c8w_d, Debt.balance]
  · unfold gcash_payment
    norm_num [c8w_d, Debt.balance]

end DebtTracker
